import Mathlib

/-!
Verification of the frame-rendering core of the `vulkan-tutorial` repository
(`src/lib.rs` and companions). The Vulkan API objects are opaque handles, so
the embedding models each routine over the data it actually inspects: surface
formats and capabilities become small structures, device-call outcomes become
explicit oracle values, and the frame scheduler becomes a step function on a
state holding the frame index, the per-slot fence status and the resize flag.
All definitions are translated from the Rust source; every deviation forced by
the shallow embedding is noted in the doc comment of the definition.
-/

/- ## Error model (`src/app_error.rs`) -/

/-- Mirror of `AppErrorType` in `src/app_error.rs`. Vulkan status codes are
carried as integers (the `vk::Result` raw values). -/
inductive AppErrorType where
  | VulkanError (code : Int)
  | VulkanLoadingError
  | NoSuitableDevice
  | NoSuitableMemType
  | IoError
  | HandleError
deriving DecidableEq, Repr

/-- `vk::Result::ERROR_OUT_OF_DATE_KHR` raw value. -/
def ERROR_OUT_OF_DATE_KHR : Int := -1000001004

/-- `vk::Result::SUBOPTIMAL_KHR` raw value. -/
def SUBOPTIMAL_KHR : Int := 1000001003

/-- `vk::Result::ERROR_DEVICE_LOST` raw value, used as a sample fatal code. -/
def ERROR_DEVICE_LOST : Int := -4

/- ## Surface formats and `choose_swap_surface_format` (`lib.rs:923-937`) -/

/-- `vk::Format::B8G8R8A8_SRGB` raw value. -/
def FORMAT_B8G8R8A8_SRGB : Nat := 50

/-- `vk::Format::R8G8B8A8_UNORM` raw value. -/
def FORMAT_R8G8B8A8_UNORM : Nat := 37

/-- `vk::ColorSpaceKHR::SRGB_NONLINEAR` raw value. -/
def COLOR_SPACE_SRGB_NONLINEAR : Nat := 0

/-- Mirror of `vk::SurfaceFormatKHR`: a format code and a color-space code. -/
structure SurfaceFormatKHR where
  format : Nat
  color_space : Nat
deriving DecidableEq, Repr

/-- The condition tested inside the loop of `choose_swap_surface_format`:
`format.format == vk::Format::B8G8R8A8_SRGB && format.color_space ==
vk::ColorSpaceKHR::SRGB_NONLINEAR`. -/
def is_preferred_format (f : SurfaceFormatKHR) : Bool :=
  f.format == FORMAT_B8G8R8A8_SRGB && f.color_space == COLOR_SPACE_SRGB_NONLINEAR

/-- The `for` loop of `choose_swap_surface_format`: return the first preferred
format, if any. -/
def choose_swap_surface_format_loop : List SurfaceFormatKHR → Option SurfaceFormatKHR
  | [] => none
  | f :: rest =>
    if is_preferred_format f then some f else choose_swap_surface_format_loop rest

/-- Mirror of `Application::choose_swap_surface_format` (`lib.rs:923`). The Rust
function `assert!`s the list is non-empty and otherwise returns the first
preferred format or `avaible_formats[0]`; the assertion panic is modelled as
`none`. -/
def choose_swap_surface_format
    (avaible_formats : List SurfaceFormatKHR) : Option SurfaceFormatKHR :=
  match avaible_formats with
  | [] => none
  | f0 :: _ => some ((choose_swap_surface_format_loop avaible_formats).getD f0)

/- ## Surface capabilities, extent, image count (`lib.rs:869-875, 951-957`) -/

/-- Mirror of `vk::Extent2D`. -/
structure Extent2D where
  width : Nat
  height : Nat
deriving DecidableEq, Repr

/-- Mirror of the fields of `vk::SurfaceCapabilitiesKHR` that the repository
reads. -/
structure SurfaceCapabilitiesKHR where
  min_image_count : Nat
  max_image_count : Nat
  current_extent : Extent2D
  min_image_extent : Extent2D
  max_image_extent : Extent2D
deriving DecidableEq, Repr

/-- Rust `u32::MAX`, the "extent determined by the application" sentinel. -/
def U32_MAX : Nat := 4294967295

/-- Rust's `Ord::clamp` on `u32` for `lo ≤ hi` (the repository only calls it
with `lo = hi`, where it cannot panic). -/
def u32_clamp (x lo hi : Nat) : Nat := min (max x lo) hi

/-- The image-count computation at the top of `Application::create_swapchain`
(`lib.rs:869-875`): `min_image_count + 1`, then — when `max_image_count` is
nonzero — `image_count.clamp(min_image_count, min_image_count)` exactly as the
source writes it. -/
def swapchain_image_count (caps : SurfaceCapabilitiesKHR) : Nat :=
  let image_count := caps.min_image_count + 1
  if caps.max_image_count ≠ 0 then
    u32_clamp image_count caps.min_image_count caps.min_image_count
  else
    image_count

/-- Mirror of `Application::choose_swap_extent` (`lib.rs:951`): a definite
current extent is returned verbatim; the sentinel branch is `todo!()`, a
panic/divergence, modelled as `none`. -/
def choose_swap_extent (capabilities : SurfaceCapabilitiesKHR) : Option Extent2D :=
  if capabilities.current_extent.width ≠ U32_MAX then
    some capabilities.current_extent
  else
    none

/-- Modelled from the spec (for comparison only, not from the source): the
extent the spec's §4.2 bullet and claim C8 demand on the sentinel path — the
desired window size clamped componentwise into the surface's min/max extent
bounds. -/
def spec_clamped_extent (desired : Extent2D) (caps : SurfaceCapabilitiesKHR) : Extent2D :=
  { width := u32_clamp desired.width caps.min_image_extent.width caps.max_image_extent.width
    height := u32_clamp desired.height caps.min_image_extent.height caps.max_image_extent.height }

/- ## `find_memory_type` (`lib.rs:1522-1537`) -/

/-- The indexed loop of `Application::find_memory_type`: scan the memory types
(each abstracted by its `property_flags` bitmask, which is all the loop reads),
returning the first index `i` with `mem_type_filter & (1 << i) != 0` and
`property_flags.contains(proprieties)` (bitmask containment). The counter `i`
is threaded exactly as `enumerate` does. -/
def find_memory_type_loop (mem_type_filter proprieties : Nat) :
    List Nat → Nat → Option Nat
  | [], _ => none
  | flags :: rest, i =>
    if mem_type_filter &&& (1 <<< i) ≠ 0 ∧ flags &&& proprieties = proprieties then
      some i
    else
      find_memory_type_loop mem_type_filter proprieties rest (i + 1)

/-- Mirror of `Application::find_memory_type` (`lib.rs:1522`): the memory-type
table is the list of `property_flags` of `memory_types`; no match yields
`Err(AppError::new(AppErrorType::NoSuitableMemType))`. -/
def find_memory_type (memory_types : List Nat) (mem_type_filter proprieties : Nat) :
    Except AppErrorType Nat :=
  match find_memory_type_loop mem_type_filter proprieties memory_types 0 with
  | some i => .ok i
  | none => .error .NoSuitableMemType

/-- The predicate claim C7 describes: bit `i` of the filter is set and memory
type `i`'s flags contain all required flags. -/
def mem_type_suitable (memory_types : List Nat) (mem_type_filter proprieties i : Nat) : Prop :=
  mem_type_filter &&& 2 ^ i ≠ 0 ∧ (memory_types.getD i 0) &&& proprieties = proprieties

instance (memory_types : List Nat) (f p i : Nat) :
    Decidable (mem_type_suitable memory_types f p i) := by
  unfold mem_type_suitable; infer_instance

/- ## Queue families and device selection (`lib.rs:680-781`, `queue_families.rs`) -/

/-- Mirror of `QueueFamilyIndice` in `src/queue_families.rs`. -/
structure QueueFamilyIndice where
  graphics_family : Option Nat
  present_family : Option Nat
deriving DecidableEq, Repr

/-- Mirror of `QueueFamilyIndice::is_complete`. -/
def QueueFamilyIndice.is_complete (q : QueueFamilyIndice) : Bool :=
  q.graphics_family.isSome && q.present_family.isSome

/-- What `find_queue_families` reads about one queue family of one device:
whether `queue_flags` contains `GRAPHICS`, and the result of
`get_physical_device_surface_support` for this family (the surface is fixed
for the whole selection). -/
structure QueueFamilyProp where
  graphics : Bool
  present : Bool
deriving DecidableEq, Repr

/-- The indexed loop of `Application::find_queue_families` (`lib.rs:727-761`):
break as soon as the indices are complete, otherwise record the current index
for each capability the family has (later families overwrite earlier ones
until completion, exactly as the source does). -/
def find_queue_families_loop : List QueueFamilyProp → Nat → QueueFamilyIndice → QueueFamilyIndice
  | [], _, indices => indices
  | family :: rest, i, indices =>
    if indices.is_complete then
      indices
    else
      let indices1 :=
        if family.graphics then { indices with graphics_family := some i } else indices
      let indices2 :=
        if family.present then { indices1 with present_family := some i } else indices1
      find_queue_families_loop rest (i + 1) indices2

/-- Mirror of `Application::find_queue_families` over the abstracted queue
family list. -/
def find_queue_families (queue_families : List QueueFamilyProp) : QueueFamilyIndice :=
  find_queue_families_loop queue_families 0 { graphics_family := none, present_family := none }

/-- Extension names, abstracted to identifiers. -/
def VK_KHR_SWAPCHAIN_NAME : Nat := 0

/-- Mirror of the `DEVICE_EXTENSIONS` constant (`lib.rs:55`). -/
def DEVICE_EXTENSIONS : List Nat := [VK_KHR_SWAPCHAIN_NAME]

/-- The required-extension loop of `Application::check_device_extensions_support`
(`lib.rs:774-778`) as the source writes it: for each required extension it runs
`if !avaible_extensions_set.insert(ext) { return Ok(false) }`. `HashSet::insert`
returns `false` exactly when the element was already present, so the loop
returns `false` at the first required extension that IS in the set, and
otherwise inserts it and goes on. The set is modelled by the list of its
elements. -/
def check_device_extensions_support_loop : List Nat → List Nat → Bool
  | [], _ => true
  | ext :: rest, avaible_set =>
    if avaible_set.contains ext then
      false
    else
      check_device_extensions_support_loop rest (ext :: avaible_set)

/-- Mirror of `Application::check_device_extensions_support` (`lib.rs:763`):
build the set of the device's extension names, then run the required-extension
loop over `DEVICE_EXTENSIONS`. -/
def check_device_extensions_support (avaible_extensions : List Nat) : Bool :=
  check_device_extensions_support_loop DEVICE_EXTENSIONS avaible_extensions

/-- What `is_device_suitable` reads about one physical device: its queue
families, device extension names, surface formats, surface present modes
(present modes abstracted to raw codes) and the `sampler_anisotropy` feature
bit. -/
structure PhysicalDeviceInfo where
  queue_families : List QueueFamilyProp
  extensions : List Nat
  formats : List SurfaceFormatKHR
  present_modes : List Nat
  sampler_anisotropy : Bool
deriving DecidableEq, Repr

/-- Mirror of `Application::is_device_suitable` (`lib.rs:696-724`): queue
families must be complete, then the extension check must pass, then the
surface must report at least one format and one present mode, then
`sampler_anisotropy` must be supported; on success the indices are returned.
(The surface queries' error paths are not modelled: on any error the device is
skipped by `pick_physical_device`'s `.ok()?`, same as returning `none` here.) -/
def is_device_suitable (device : PhysicalDeviceInfo) : Option QueueFamilyIndice :=
  let indices := find_queue_families device.queue_families
  if ¬ indices.is_complete then
    none
  else if ¬ check_device_extensions_support device.extensions then
    none
  else if device.formats.isEmpty || device.present_modes.isEmpty then
    none
  else if device.sampler_anisotropy = false then
    none
  else
    some indices

/-- The `find_map` of `Application::pick_physical_device` (`lib.rs:685-691`). -/
def pick_physical_device_loop :
    List PhysicalDeviceInfo → Option (PhysicalDeviceInfo × QueueFamilyIndice)
  | [] => none
  | device :: rest =>
    match is_device_suitable device with
    | some indices => some (device, indices)
    | none => pick_physical_device_loop rest

/-- Mirror of `Application::pick_physical_device` (`lib.rs:680`): first
suitable device in enumeration order, else `NoSuitableDevice`. -/
def pick_physical_device (physical_devices : List PhysicalDeviceInfo) :
    Except AppErrorType (PhysicalDeviceInfo × QueueFamilyIndice) :=
  match pick_physical_device_loop physical_devices with
  | some x => .ok x
  | none => .error .NoSuitableDevice

/- ## Teardown order (`lib.rs:2018-2090`) -/

/-- One destruction step of `Application::cleanup` / `cleanup_swapchain`, with
indexed events for the per-element loops. `MAX_FRAMES_IN_FLIGHT`-indexed
resources carry their slot index. -/
inductive CleanupEv where
  | waitIdle
  | framebuffer (i : Nat)
  | imageView (i : Nat)
  | swapchain
  | vertexBuffer
  | vertexMemory
  | indexBuffer
  | indexMemory
  | sampler
  | textureImageView
  | textureImage
  | textureMemory
  | uniformBuffer (i : Nat)
  | uniformMemory (i : Nat)
  | descriptorPool
  | descriptorSetLayout
  | pipelineObj
  | pipelineLayout
  | renderPass
  | imageAvaibleSemaphore (i : Nat)
  | renderDoneSemaphore (i : Nat)
  | inFlightFence (i : Nat)
  | commandPool
  | device
  | debugMessenger
  | surface
  | instanceObj
deriving DecidableEq, Repr

/-- Mirror of the `MAX_FRAMES_IN_FLIGHT` constant (`lib.rs:53`). -/
def MAX_FRAMES_IN_FLIGHT : Nat := 2

/-- Mirror of `Application::cleanup_swapchain` (`lib.rs:2018`) as its sequence
of destruction events: every framebuffer, then every swapchain image view,
then the swapchain. `n` is the number of swapchain images (the lengths of
`swapchain_frame_buffers` and `swapchain_image_views`). -/
def cleanup_swapchain (n : Nat) : List CleanupEv :=
  (List.range n).map CleanupEv.framebuffer
    ++ (List.range n).map CleanupEv.imageView
    ++ [CleanupEv.swapchain]

/-- Mirror of `Application::cleanup` (`lib.rs:2036`) as its sequence of events,
in source order: wait for device idle, `cleanup_swapchain`, vertex and index
buffers with their memory, sampler, texture view/image/memory, the
`MAX_FRAMES_IN_FLIGHT` uniform buffers with their memory, descriptor
pool and set layout, pipeline and its layout, render pass, the per-slot
semaphores and fences, command pool, device, debug messenger (present in the
`vlayers` build), surface, instance. -/
def cleanup (n : Nat) : List CleanupEv :=
  [CleanupEv.waitIdle]
    ++ cleanup_swapchain n
    ++ [CleanupEv.vertexBuffer, CleanupEv.vertexMemory,
        CleanupEv.indexBuffer, CleanupEv.indexMemory,
        CleanupEv.sampler, CleanupEv.textureImageView,
        CleanupEv.textureImage, CleanupEv.textureMemory]
    ++ (List.range MAX_FRAMES_IN_FLIGHT).flatMap
        (fun i => [CleanupEv.uniformBuffer i, CleanupEv.uniformMemory i])
    ++ [CleanupEv.descriptorPool, CleanupEv.descriptorSetLayout,
        CleanupEv.pipelineObj, CleanupEv.pipelineLayout,
        CleanupEv.renderPass]
    ++ (List.range MAX_FRAMES_IN_FLIGHT).flatMap
        (fun i => [CleanupEv.imageAvaibleSemaphore i,
                   CleanupEv.renderDoneSemaphore i,
                   CleanupEv.inFlightFence i])
    ++ [CleanupEv.commandPool, CleanupEv.device, CleanupEv.debugMessenger,
        CleanupEv.surface, CleanupEv.instanceObj]

/- ## Frame scheduler (`lib.rs:328-416`, `lib.rs:1924-1952`, `lib.rs:534-559`) -/

/-- Host-visible status of one in-flight fence: `signaled`, `pending` (a
submission will signal it), or `unsignaled` (reset with no submission — only a
bug could leave a fence in this state across cycles). -/
inductive FenceSt where
  | signaled
  | pending
  | unsignaled
deriving DecidableEq, Repr

/-- The mutable scheduling state `draw_frame` touches: `current_frame`
(initialized to 0 in `Application::create`, `lib.rs:306`), the status of each
`in_flight_fences` entry, and the sticky `resize_flag`. -/
structure SchedState where
  current_frame : Nat
  fences : List FenceSt
  resize_flag : Bool
deriving DecidableEq, Repr

/-- The state after `Application::create`: `current_frame = 0`,
`resize_flag = false`, and every in-flight fence created with
`vk::FenceCreateFlags::SIGNALED` (`lib.rs:1929-1932`). -/
def create_state (n : Nat) : SchedState :=
  { current_frame := 0
    fences := List.replicate n .signaled
    resize_flag := false }

/-- Result of `acquire_next_image`: `ok` carries the image index and the
suboptimal flag, `err` the raw `vk::Result` code. -/
inductive AcquireRes where
  | ok (image_index : Nat) (suboptimal : Bool)
  | err (code : Int)
deriving DecidableEq, Repr

/-- Result of `queue_present`: `ok` carries the suboptimal flag, `err` the raw
`vk::Result` code. -/
inductive PresentRes where
  | ok (suboptimal : Bool)
  | err (code : Int)
deriving DecidableEq, Repr

/-- Outcomes of the device calls one `draw_frame` cycle makes, supplied as an
oracle (the device is external). `none` in an `Option Int` field means the
call succeeded, `some code` that it failed with that `vk::Result`.
`recreate_res` is the outcome of `recreate_swapchain` if the cycle triggers it
(`none` = success). `resize_before` records whether the windowing layer called
`request_resize` before this cycle. -/
structure CycleOracle where
  resize_before : Bool
  wait_res : Option Int
  acquire : AcquireRes
  reset_fences_res : Option Int
  reset_cmd_buf_res : Option Int
  record_res : Option Int
  submit_res : Option Int
  present : PresentRes
  recreate_res : Option AppErrorType
deriving DecidableEq, Repr

/-- Scheduler events observable in a `draw_frame` trace: a completed blocking
wait on slot `k`'s fence, a reset of slot `k`'s fence, a submission to the
graphics queue fencing slot `k`, and a swapchain recreation. -/
inductive SchedEv where
  | fenceWait (k : Nat)
  | fenceReset (k : Nat)
  | submit (k : Nat)
  | recreate
deriving DecidableEq, Repr

/-- How one `draw_frame` call ended: `ok` (returned `Ok(())`), `fatal`
(returned `Err`), or `blocked` (the initial fence wait can never return
because the fence is unsignaled with no submission pending). -/
inductive DrawOutcome where
  | ok
  | fatal (e : AppErrorType)
  | blocked
deriving DecidableEq, Repr

/-- Effect of `device_wait_idle` (the first statement of
`recreate_swapchain`, `lib.rs:540`) on the fences: all pending GPU work
completes, signalling its fence. -/
def signal_pending (fences : List FenceSt) : List FenceSt :=
  fences.map fun f => match f with | .pending => .signaled | x => x

/-- The pattern of the first arm of the `queue_present` match
(`lib.rs:403`): `Err(vk::Result::ERROR_OUT_OF_DATE_KHR) | Ok(true) | Ok(_)`.
In Rust the `if self.resize_flag` guard applies to the whole or-pattern, so
the arm is taken iff this pattern matches AND the guard holds. -/
def present_first_arm_pattern (p : PresentRes) : Bool :=
  match p with
  | .err code => code == ERROR_OUT_OF_DATE_KHR
  | .ok _ => true

/-- Mirror of `Application::draw_frame` (`lib.rs:328-416`) as a step function:
given the scheduling state and the oracle of device-call outcomes, produce the
new state, the list of scheduler events of the cycle, and how the call ended.
The control flow follows the source line by line:
wait on the current slot's fence; acquire (out-of-date ⇒ recreate and return
`Ok`, other error ⇒ return it); reset the fence and command buffer, record,
submit fencing the current slot; present, whose match — because the guard
covers the whole first or-pattern — recreates and returns `Ok` only when
`resize_flag` is set, returns any `Err` (including out-of-date) otherwise, and
finally advances `current_frame` modulo `n` (`MAX_FRAMES_IN_FLIGHT`). -/
def draw_frame (n : Nat) (s : SchedState) (o : CycleOracle) :
    SchedState × List SchedEv × DrawOutcome :=
  let cf := s.current_frame
  if s.fences.getD cf .unsignaled = .unsignaled then
    (s, [], .blocked)
  else
    match o.wait_res with
    | some code => (s, [], .fatal (.VulkanError code))
    | none =>
      -- the wait returned: the fence is now signaled
      let s1 : SchedState := { s with fences := s.fences.set cf .signaled }
      match o.acquire with
      | .err code =>
        if code = ERROR_OUT_OF_DATE_KHR then
          match o.recreate_res with
          | some e =>
            ({ s1 with fences := signal_pending s1.fences },
              [.fenceWait cf, .recreate], .fatal e)
          | none =>
            ({ s1 with fences := signal_pending s1.fences },
              [.fenceWait cf, .recreate], .ok)
        else
          (s1, [.fenceWait cf], .fatal (.VulkanError code))
      | .ok _image_index _subopt =>
        match o.reset_fences_res with
        | some code => (s1, [.fenceWait cf], .fatal (.VulkanError code))
        | none =>
          let s2 : SchedState := { s1 with fences := s1.fences.set cf .unsignaled }
          match o.reset_cmd_buf_res with
          | some code =>
            (s2, [.fenceWait cf, .fenceReset cf], .fatal (.VulkanError code))
          | none =>
            match o.record_res with
            | some code =>
              (s2, [.fenceWait cf, .fenceReset cf], .fatal (.VulkanError code))
            | none =>
              match o.submit_res with
              | some code =>
                (s2, [.fenceWait cf, .fenceReset cf], .fatal (.VulkanError code))
              | none =>
                let s3 : SchedState := { s2 with fences := s2.fences.set cf .pending }
                if present_first_arm_pattern o.present ∧ s3.resize_flag then
                  let s4 : SchedState := { s3 with resize_flag := false }
                  match o.recreate_res with
                  | some e =>
                    ({ s4 with fences := signal_pending s4.fences },
                      [.fenceWait cf, .fenceReset cf, .submit cf, .recreate], .fatal e)
                  | none =>
                    ({ s4 with fences := signal_pending s4.fences },
                      [.fenceWait cf, .fenceReset cf, .submit cf, .recreate], .ok)
                else
                  match o.present with
                  | .err code =>
                    (s3, [.fenceWait cf, .fenceReset cf, .submit cf],
                      .fatal (.VulkanError code))
                  | .ok _ =>
                    ({ s3 with current_frame := (cf + 1) % n },
                      [.fenceWait cf, .fenceReset cf, .submit cf], .ok)

/-- How a sequence of cycles ended: all cycles ran (`finished`), some cycle
returned an error (`fatal` — the caller then terminates), or some cycle
blocked forever on its fence wait. -/
inductive RunEnd where
  | finished
  | fatal (e : AppErrorType)
  | blocked
deriving DecidableEq, Repr

/-- Repeated `draw_frame` cycles driven by the event loop: before each cycle
the windowing layer may call `request_resize` (`lib.rs:534`, sets the sticky
flag); the run stops at the first fatal error or blocked wait. Returns the
final state, the concatenated event trace, and how the run ended. -/
def run_cycles (n : Nat) (s : SchedState) :
    List CycleOracle → SchedState × List SchedEv × RunEnd
  | [] => (s, [], .finished)
  | o :: os =>
    let s0 := if o.resize_before then { s with resize_flag := true } else s
    let step := draw_frame n s0 o
    match step.2.2 with
    | .ok =>
      let rest := run_cycles n step.1 os
      (rest.1, step.2.1 ++ rest.2.1, rest.2.2)
    | .fatal e => (step.1, step.2.1, .fatal e)
    | .blocked => (step.1, step.2.1, .blocked)

/-- Number of slots with a submitted-but-unwaited (pending) fence: the frames
with outstanding unfenced GPU work. -/
def pending_count (fences : List FenceSt) : Nat :=
  (fences.filter fun f => f == .pending).length

/-- Per-slot submission discipline over a trace, the formal content of claim
C4: scanning the trace with an `armed` flag per slot `k` (set by a completed
wait on slot `k`'s fence, cleared by a submission fencing slot `k`), every
submission fencing slot `k` must find the flag set — i.e. a completed blocking
wait on slot `k`'s fence separates any two submissions of slot `k`. -/
def slot_discipline (k : Nat) : List SchedEv → Bool → Bool
  | [], _ => true
  | e :: rest, armed =>
    match e with
    | .fenceWait j => slot_discipline k rest (if j = k then true else armed)
    | .submit j =>
      if j = k then armed && slot_discipline k rest false
      else slot_discipline k rest armed
    | _ => slot_discipline k rest armed

/- ## Derived notions used by the statements -/

/-- Injective position key for teardown events: the first component is the
stage of `cleanup` the event belongs to (in the source's execution order), the
second the exact position inside a per-slot loop stage. -/
def cleanup_key : CleanupEv → Nat × Nat
  | .waitIdle => (0, 0)
  | .framebuffer i => (1, i)
  | .imageView i => (2, i)
  | .swapchain => (3, 0)
  | .vertexBuffer => (4, 0)
  | .vertexMemory => (5, 0)
  | .indexBuffer => (6, 0)
  | .indexMemory => (7, 0)
  | .sampler => (8, 0)
  | .textureImageView => (9, 0)
  | .textureImage => (10, 0)
  | .textureMemory => (11, 0)
  | .uniformBuffer i => (12, 2 * i)
  | .uniformMemory i => (12, 2 * i + 1)
  | .descriptorPool => (13, 0)
  | .descriptorSetLayout => (14, 0)
  | .pipelineObj => (15, 0)
  | .pipelineLayout => (16, 0)
  | .renderPass => (17, 0)
  | .imageAvaibleSemaphore i => (18, 3 * i)
  | .renderDoneSemaphore i => (18, 3 * i + 1)
  | .inFlightFence i => (18, 3 * i + 2)
  | .commandPool => (19, 0)
  | .device => (20, 0)
  | .debugMessenger => (21, 0)
  | .surface => (22, 0)
  | .instanceObj => (23, 0)

/-- The teardown stage of a destruction event (monotone along `cleanup`). -/
def cleanup_rank (e : CleanupEv) : Nat := (cleanup_key e).1

/-- Strict lexicographic order on position keys. -/
def key_lt (a b : Nat × Nat) : Prop := a.1 < b.1 ∨ (a.1 = b.1 ∧ a.2 < b.2)

/-- The scheduler-state invariant behind claims C4/C5/C10: the frame index is
in range, the fence table has one entry per slot, and no fence is left reset
without a pending submission across a cycle boundary. -/
def good_state (n : Nat) (s : SchedState) : Prop :=
  s.current_frame < n ∧ s.fences.length = n ∧ ∀ f ∈ s.fences, f ≠ .unsignaled

/-- The `armed` flag of `slot_discipline` after scanning a trace: set by a
completed wait on slot `k`'s fence, cleared by a submission fencing slot `k`. -/
def armed_after (k : Nat) (l : List SchedEv) (a : Bool) : Bool :=
  l.foldl
    (fun acc e =>
      match e with
      | .fenceWait j => if j = k then true else acc
      | .submit j => if j = k then false else acc
      | _ => acc)
    a

instance (a b : Nat × Nat) : Decidable (key_lt a b) := by
  unfold key_lt; infer_instance

/- ## Concrete inputs used by the closed theorems and witnesses -/

/-- A cycle where every device call succeeds and presentation is optimal. -/
def draw_ok_oracle : CycleOracle :=
  { resize_before := false
    wait_res := none
    acquire := .ok 0 false
    reset_fences_res := none
    reset_cmd_buf_res := none
    record_res := none
    submit_res := none
    present := .ok false
    recreate_res := none }

/-- A physical device that is suitable in every respect the claims list,
including offering the `VK_KHR_swapchain` device extension. -/
def device_with_swapchain_ext : PhysicalDeviceInfo :=
  { queue_families := [{ graphics := true, present := true }]
    extensions := [VK_KHR_SWAPCHAIN_NAME]
    formats := [{ format := FORMAT_B8G8R8A8_SRGB, color_space := COLOR_SPACE_SRGB_NONLINEAR }]
    present_modes := [1]
    sampler_anisotropy := true }

/-- The same device with an empty device-extension list, i.e. lacking the
required swapchain extension. -/
def device_without_swapchain_ext : PhysicalDeviceInfo :=
  { device_with_swapchain_ext with extensions := [] }

/-- Surface capabilities with `min_image_count = 2`, `max_image_count = 3`:
the claimed request is `min + 1 = 3`, which is within bounds. -/
def caps_min2_max3 : SurfaceCapabilitiesKHR :=
  { min_image_count := 2
    max_image_count := 3
    current_extent := { width := 800, height := 600 }
    min_image_extent := { width := 1, height := 1 }
    max_image_extent := { width := 4096, height := 4096 } }

/-- Surface capabilities reporting the "extent determined by the application"
sentinel, with definite min/max extent bounds. -/
def caps_sentinel : SurfaceCapabilitiesKHR :=
  { min_image_count := 2
    max_image_count := 0
    current_extent := { width := U32_MAX, height := 600 }
    min_image_extent := { width := 100, height := 100 }
    max_image_extent := { width := 1000, height := 1000 } }

/-- A desired window size for the sentinel path. -/
def desired_window_extent : Extent2D := { width := 800, height := 600 }

/-- The spec's sample format list: `[R8G8B8A8_UNORM,
B8G8R8A8_SRGB+SRGB_NONLINEAR]`. -/
def sample_format_list : List SurfaceFormatKHR :=
  [{ format := FORMAT_R8G8B8A8_UNORM, color_space := 0 },
   { format := FORMAT_B8G8R8A8_SRGB, color_space := COLOR_SPACE_SRGB_NONLINEAR }]

/-- A memory-type table whose index 0 carries the required flags but is
excluded by the filter, and whose index 3 is the only index passing both
tests with `mem_filter_only3`/`mem_props_only3`. -/
def mem_table_only3 : List Nat := [1, 0, 0, 1]

/-- Type filter with only bit 3 set. -/
def mem_filter_only3 : Nat := 8

/-- Required property flags for the only-index-3 example. -/
def mem_props_only3 : Nat := 1

/- ## Theorems -/

theorem choose_swap_surface_format_loop_eq_find (l : List SurfaceFormatKHR) :
    choose_swap_surface_format_loop l = l.find? is_preferred_format := by
  induction l with
  | nil => rfl
  | cons f rest ih =>
    by_cases h : is_preferred_format f
    · simp [choose_swap_surface_format_loop, List.find?, h]
    · simp [choose_swap_surface_format_loop, List.find?, h, ih]

/-- Claim C6: for every non-empty format list, `choose_swap_surface_format`
returns the first entry that is `B8G8R8A8_SRGB` with `SRGB_NONLINEAR` color
space when one exists and the first listed format otherwise; on the spec's
sample list it returns the sRGB/nonlinear pair; the empty list (violating the
asserted precondition) is the panic case. -/
theorem choose_swap_surface_format_spec :
    (∀ (f0 : SurfaceFormatKHR) (rest : List SurfaceFormatKHR),
      choose_swap_surface_format (f0 :: rest) =
        some (((f0 :: rest).find? is_preferred_format).getD f0)) ∧
    choose_swap_surface_format [] = none ∧
    choose_swap_surface_format sample_format_list =
      some { format := FORMAT_B8G8R8A8_SRGB, color_space := COLOR_SPACE_SRGB_NONLINEAR } := by
  refine ⟨?_, rfl, by decide⟩
  intro f0 rest
  simp [choose_swap_surface_format, choose_swap_surface_format_loop_eq_find]

/-- Claim C3 (failing input): with `min_image_count = 2` and
`max_image_count = 3` the claimed request `min + 1 = 3` is within bounds, yet
`create_swapchain`'s computation — `clamp(min_image_count, min_image_count)` —
requests 2 images. -/
theorem swapchain_image_count_min2_max3 :
    caps_min2_max3.min_image_count + 1 = 3 ∧
    caps_min2_max3.min_image_count + 1 ≤ caps_min2_max3.max_image_count ∧
    swapchain_image_count caps_min2_max3 = 2 := by decide

/-- Claim C8 (counterexample): on the sentinel capabilities the code diverges
(`todo!()`, modelled `none`) and in particular does not return the clamped
desired size the claim demands. -/
theorem choose_swap_extent_sentinel_no_clamp :
    choose_swap_extent caps_sentinel = none ∧
    choose_swap_extent caps_sentinel ≠
      some (spec_clamped_extent desired_window_extent caps_sentinel) := by decide

/-- Claim C8 (amended): a capabilities value whose `current_extent.width` is
not the `u32::MAX` sentinel yields the reported current extent verbatim; on
the sentinel the function diverges (the `todo!()` branch) instead of clamping. -/
theorem choose_swap_extent_spec (caps : SurfaceCapabilitiesKHR) :
    (caps.current_extent.width ≠ U32_MAX →
      choose_swap_extent caps = some caps.current_extent) ∧
    (caps.current_extent.width = U32_MAX → choose_swap_extent caps = none) := by
  unfold choose_swap_extent
  constructor <;> intro h <;> simp [h]

/-- Witness for `choose_swap_extent_spec` at concrete capabilities. -/
theorem choose_swap_extent_spec_witness :
    choose_swap_extent caps_min2_max3 = some caps_min2_max3.current_extent ∧
    choose_swap_extent caps_sentinel = none :=
  ⟨(choose_swap_extent_spec caps_min2_max3).1 (by decide),
   (choose_swap_extent_spec caps_sentinel).2 (by decide)⟩

/-- Claim C2 (failing input): the extension check of
`check_device_extensions_support` is inverted — it returns `false` for a
device whose extension list contains the required swapchain extension and
`true` for a device lacking it — so a fully suitable device is rejected with
`NoSuitableDevice` while the same device without the extension is selected. -/
theorem pick_physical_device_extension_check :
    check_device_extensions_support [VK_KHR_SWAPCHAIN_NAME] = false ∧
    check_device_extensions_support [] = true ∧
    pick_physical_device [device_with_swapchain_ext] = .error .NoSuitableDevice ∧
    pick_physical_device [device_without_swapchain_ext] =
      .ok (device_without_swapchain_ext,
           { graphics_family := some 0, present_family := some 0 }) := by
  refine ⟨rfl, rfl, rfl, rfl⟩

/-- Claim C1 (failing input): acquire-out-of-date recreates and returns `Ok`
and any other acquire error is fatal, as claimed; but at the present step the
`if self.resize_flag` guard covers the whole or-pattern, so
presentation-out-of-date is returned as a fatal error unless a resize was
requested during the cycle — only with the flag set does it recreate and
return `Ok`. -/
theorem draw_frame_out_of_date_policy :
    (draw_frame 2 (create_state 2)
        { draw_ok_oracle with acquire := .err ERROR_OUT_OF_DATE_KHR }).2.2 = .ok ∧
    (draw_frame 2 (create_state 2)
        { draw_ok_oracle with acquire := .err ERROR_DEVICE_LOST }).2.2 =
      .fatal (.VulkanError ERROR_DEVICE_LOST) ∧
    (draw_frame 2 { create_state 2 with resize_flag := true }
        { draw_ok_oracle with present := .err ERROR_OUT_OF_DATE_KHR }).2.2 = .ok ∧
    (draw_frame 2 (create_state 2)
        { draw_ok_oracle with present := .err ERROR_OUT_OF_DATE_KHR }).2.2 =
      .fatal (.VulkanError ERROR_OUT_OF_DATE_KHR) ∧
    (draw_frame 2 (create_state 2)
        { draw_ok_oracle with present := .err ERROR_DEVICE_LOST }).2.2 =
      .fatal (.VulkanError ERROR_DEVICE_LOST) := by
  refine ⟨by decide, by decide, by decide, by decide, by decide⟩

theorem find_memory_type_loop_spec (filter props : Nat) :
    ∀ (l : List Nat) (i0 : Nat),
      (∀ i, find_memory_type_loop filter props l i0 = some i →
        i0 ≤ i ∧ i - i0 < l.length ∧
        (filter &&& (1 <<< i) ≠ 0 ∧ (l.getD (i - i0) 0) &&& props = props) ∧
        ∀ j, i0 ≤ j → j < i →
          ¬ (filter &&& (1 <<< j) ≠ 0 ∧ (l.getD (j - i0) 0) &&& props = props)) ∧
      (find_memory_type_loop filter props l i0 = none ↔
        ∀ k, k < l.length →
          ¬ (filter &&& (1 <<< (i0 + k)) ≠ 0 ∧ (l.getD k 0) &&& props = props)) := by
  intro l
  induction l with
  | nil =>
    intro i0
    constructor
    · intro i h
      simp [find_memory_type_loop] at h
    · simp [find_memory_type_loop]
  | cons flags rest ih =>
    intro i0
    by_cases hc : filter &&& (1 <<< i0) ≠ 0 ∧ flags &&& props = props
    · constructor
      · intro i h
        rw [find_memory_type_loop, if_pos hc] at h
        cases h
        refine ⟨Nat.le_refl _, by simp, by simpa using hc, ?_⟩
        intro j h1 h2
        omega
      · rw [find_memory_type_loop, if_pos hc]
        simp only [false_iff, reduceCtorEq]
        intro hall
        exact hall 0 (by simp) (by simpa using hc)
    · have step : find_memory_type_loop filter props (flags :: rest) i0 =
          find_memory_type_loop filter props rest (i0 + 1) := by
        rw [find_memory_type_loop, if_neg hc]
      constructor
      · intro i h
        rw [step] at h
        obtain ⟨h1, h2, h3, h4⟩ := (ih (i0 + 1)).1 i h
        have hi : i0 ≤ i := by omega
        refine ⟨hi, by simp; omega, ?_, ?_⟩
        · have : (flags :: rest).getD (i - i0) 0 = rest.getD (i - (i0 + 1)) 0 := by
            have hd : i - i0 = (i - (i0 + 1)) + 1 := by omega
            rw [hd]
            simp
          rw [this]
          exact h3
        · intro j hj1 hj2
          by_cases hj : j = i0
          · subst hj
            simpa using hc
          · have : (flags :: rest).getD (j - i0) 0 = rest.getD (j - (i0 + 1)) 0 := by
              have hd : j - i0 = (j - (i0 + 1)) + 1 := by omega
              rw [hd]
              simp
            rw [this]
            exact h4 j (by omega) hj2
      · rw [step, (ih (i0 + 1)).2]
        constructor
        · intro hall k hk
          match k with
          | 0 => simpa using hc
          | Nat.succ k' =>
            have := hall k' (by simpa using Nat.lt_of_succ_lt_succ hk)
            simpa [Nat.add_assoc, Nat.add_comm 1 k', Nat.add_left_comm] using this
        · intro hall k hk
          have := hall (k + 1) (by simpa using Nat.succ_lt_succ hk)
          simpa [Nat.add_assoc, Nat.add_comm 1 k, Nat.add_left_comm] using this

/-- Claim C7: `find_memory_type` returns the lowest index whose filter bit is
set and whose property flags contain all required flags, and fails with
`NoSuitableMemType` exactly when no index of the table satisfies both; on the
example where only index 3 matches it returns 3. -/
theorem find_memory_type_spec (memory_types : List Nat) (filter props : Nat) :
    (∀ i, find_memory_type memory_types filter props = .ok i →
      i < memory_types.length ∧
      mem_type_suitable memory_types filter props i ∧
      ∀ j, j < i → ¬ mem_type_suitable memory_types filter props j) ∧
    (find_memory_type memory_types filter props = .error .NoSuitableMemType ↔
      ∀ i, i < memory_types.length → ¬ mem_type_suitable memory_types filter props i) ∧
    find_memory_type mem_table_only3 mem_filter_only3 mem_props_only3 = .ok 3 := by
  have hpow : ∀ i : Nat, (1 : Nat) <<< i = 2 ^ i := by
    intro i
    simp [Nat.shiftLeft_eq]
  have hloop := find_memory_type_loop_spec filter props memory_types 0
  refine ⟨?_, ?_, by rfl⟩
  · intro i h
    unfold find_memory_type at h
    match hres : find_memory_type_loop filter props memory_types 0 with
    | some i' =>
      rw [hres] at h
      cases h
      obtain ⟨_, h2, h3, h4⟩ := hloop.1 i hres
      refine ⟨by simpa using h2, ?_, ?_⟩
      · unfold mem_type_suitable
        simpa [hpow] using h3
      · intro j hj
        have := h4 j (Nat.zero_le _) hj
        unfold mem_type_suitable
        simpa [hpow] using this
    | none =>
      rw [hres] at h
      cases h
  · unfold find_memory_type
    match hres : find_memory_type_loop filter props memory_types 0 with
    | some i' =>
      simp only [reduceCtorEq, false_iff]
      intro hall
      obtain ⟨_, h2, h3, _⟩ := hloop.1 i' hres
      exact hall i' (by simpa using h2) (by unfold mem_type_suitable; simpa [hpow] using h3)
    | none =>
      simp only [true_iff]
      intro i hi
      have := hloop.2.mp hres i hi
      unfold mem_type_suitable
      simpa [hpow] using this

/-- Witness for `find_memory_type_spec`: the only-index-3 example satisfies
the lowest-index characterization, and a required flag set nothing satisfies
yields `NoSuitableMemType`. -/
theorem find_memory_type_spec_witness :
    (3 < mem_table_only3.length ∧
      mem_type_suitable mem_table_only3 mem_filter_only3 mem_props_only3 3 ∧
      ∀ j, j < 3 → ¬ mem_type_suitable mem_table_only3 mem_filter_only3 mem_props_only3 j) ∧
    find_memory_type mem_table_only3 mem_filter_only3 2 = .error .NoSuitableMemType :=
  ⟨(find_memory_type_spec mem_table_only3 mem_filter_only3 mem_props_only3).1 3 (by rfl),
   (find_memory_type_spec mem_table_only3 mem_filter_only3 2).2.1.mpr (by decide)⟩


theorem draw_frame_cycle_facts (n : Nat) (s : SchedState) (o : CycleOracle) :
    ((draw_frame n s o).2.1 = [] ∨
     (draw_frame n s o).2.1 = [.fenceWait s.current_frame] ∨
     (draw_frame n s o).2.1 = [.fenceWait s.current_frame, .recreate] ∨
     (draw_frame n s o).2.1 =
       [.fenceWait s.current_frame, .fenceReset s.current_frame] ∨
     (draw_frame n s o).2.1 =
       [.fenceWait s.current_frame, .fenceReset s.current_frame,
        .submit s.current_frame] ∨
     (draw_frame n s o).2.1 =
       [.fenceWait s.current_frame, .fenceReset s.current_frame,
        .submit s.current_frame, .recreate]) ∧
    ((draw_frame n s o).2.2 = .ok ∧ SchedEv.recreate ∉ (draw_frame n s o).2.1 ∧
       (draw_frame n s o).1.current_frame = (s.current_frame + 1) % n ∨
     ((draw_frame n s o).2.2 ≠ .ok ∨ SchedEv.recreate ∈ (draw_frame n s o).2.1) ∧
       (draw_frame n s o).1.current_frame = s.current_frame) ∧
    (draw_frame n s o).1.fences.length = s.fences.length ∧
    ((draw_frame n s o).2.2 = .ok →
      (draw_frame n s o).1.fences =
        signal_pending (s.fences.set s.current_frame .signaled) ∨
      (draw_frame n s o).1.fences =
        signal_pending (s.fences.set s.current_frame .pending) ∨
      (draw_frame n s o).1.fences = s.fences.set s.current_frame .pending) ∧
    ((draw_frame n s o).2.2 = .blocked →
      s.fences.getD s.current_frame .unsignaled = .unsignaled) := by
  obtain ⟨rb, wr, acq, rfr, rcr, rr, sr, pr, rer⟩ := o
  by_cases hb : s.fences[s.current_frame]?.getD FenceSt.unsignaled = FenceSt.unsignaled
  · simp [draw_frame, hb]
  · cases wr with
    | some code => simp [draw_frame, hb]
    | none =>
      cases acq with
      | err code =>
        by_cases hc : code = ERROR_OUT_OF_DATE_KHR
        · cases rer <;> simp [draw_frame, hb, hc, signal_pending, List.set_set]
        · simp [draw_frame, hb, hc]
      | ok idx sub =>
        cases rfr with
        | some code => simp [draw_frame, hb]
        | none =>
          cases rcr with
          | some code => simp [draw_frame, hb, List.set_set]
          | none =>
            cases rr with
            | some code => simp [draw_frame, hb, List.set_set]
            | none =>
              cases sr with
              | some code => simp [draw_frame, hb, List.set_set]
              | none =>
                by_cases hp : present_first_arm_pattern pr = true ∧ s.resize_flag = true
                · cases rer <;> simp [draw_frame, hb, hp, signal_pending, List.set_set]
                · cases pr <;> simp [draw_frame, hb, hp, List.set_set]

theorem slot_discipline_cycle (n : Nat) (s : SchedState) (o : CycleOracle)
    (k : Nat) (a : Bool) :
    slot_discipline k (draw_frame n s o).2.1 a = true := by
  rcases (draw_frame_cycle_facts n s o).1 with h | h | h | h | h | h <;> rw [h] <;>
    by_cases hk : s.current_frame = k <;> simp [slot_discipline, hk]

theorem slot_discipline_append (k : Nat) (l1 l2 : List SchedEv) (a : Bool) :
    slot_discipline k (l1 ++ l2) a =
      (slot_discipline k l1 a && slot_discipline k l2 (armed_after k l1 a)) := by
  induction l1 generalizing a with
  | nil => simp [slot_discipline, armed_after]
  | cons e rest ih =>
    cases e with
    | fenceWait j => simpa [slot_discipline, armed_after] using ih (if j = k then true else a)
    | fenceReset j => simpa [slot_discipline, armed_after] using ih a
    | recreate => simpa [slot_discipline, armed_after] using ih a
    | submit j =>
      by_cases hj : j = k
      · cases a with
        | false => simp [slot_discipline, armed_after, hj]
        | true => simpa [slot_discipline, armed_after, hj] using ih false
      · simpa [slot_discipline, armed_after, hj] using ih a

theorem run_cycles_discipline (n : Nat) (os : List CycleOracle) :
    ∀ (s : SchedState) (k : Nat) (a : Bool),
      slot_discipline k (run_cycles n s os).2.1 a = true := by
  induction os with
  | nil => intro s k a; rfl
  | cons o rest ih =>
    intro s k a
    have hc := slot_discipline_cycle n
      (if o.resize_before then { s with resize_flag := true } else s) o k
    rcases hout : (draw_frame n
        (if o.resize_before then { s with resize_flag := true } else s) o).2.2 with _ | e
    · simp only [run_cycles, hout]
      rw [slot_discipline_append, hc, ih]
      rfl
    · simp only [run_cycles, hout]
      exact hc a
    · simp only [run_cycles, hout]
      exact hc a

theorem run_cycles_fences_length (n : Nat) (os : List CycleOracle) :
    ∀ s : SchedState, (run_cycles n s os).1.fences.length = s.fences.length := by
  induction os with
  | nil => intro s; rfl
  | cons o rest ih =>
    intro s
    have hstep := (draw_frame_cycle_facts n
      (if o.resize_before then { s with resize_flag := true } else s) o).2.2.1
    have hbase :
        (if o.resize_before then { s with resize_flag := true } else s).fences.length =
          s.fences.length := by
      split <;> rfl
    rcases hout : (draw_frame n
        (if o.resize_before then { s with resize_flag := true } else s) o).2.2 with _ | e
    · simp only [run_cycles, hout]
      rw [ih, hstep, hbase]
    · simp only [run_cycles, hout]
      rw [hstep, hbase]
    · simp only [run_cycles, hout]
      rw [hstep, hbase]

/-- Claim C4: for every concurrency depth `n ≥ 1` and every cycle sequence,
the trace satisfies the per-slot discipline — a submission fencing slot `k` is
always separated from the previous one by a completed blocking wait on slot
`k`'s fence — and hence at most `n` slots (the number of fences) have
outstanding unfenced GPU work at any instant. -/
theorem draw_frame_slot_discipline (n : Nat) (h : 1 ≤ n) (os : List CycleOracle) (k : Nat) :
    slot_discipline k (run_cycles n (create_state n) os).2.1 false = true ∧
    pending_count (run_cycles n (create_state n) os).1.fences ≤ n := by
  refine ⟨run_cycles_discipline n os (create_state n) k false, ?_⟩
  have hlen : (run_cycles n (create_state n) os).1.fences.length = n := by
    rw [run_cycles_fences_length]
    simp [create_state]
  calc pending_count (run_cycles n (create_state n) os).1.fences
      ≤ (run_cycles n (create_state n) os).1.fences.length :=
        List.length_filter_le _ _
    _ = n := hlen

/-- Witness for `draw_frame_slot_discipline` at depth 2 over three ordinary
cycles. -/
theorem draw_frame_slot_discipline_witness :
    slot_discipline 0
      (run_cycles 2 (create_state 2)
        [draw_ok_oracle, draw_ok_oracle, draw_ok_oracle]).2.1 false = true ∧
    pending_count
      (run_cycles 2 (create_state 2)
        [draw_ok_oracle, draw_ok_oracle, draw_ok_oracle]).1.fences ≤ 2 :=
  draw_frame_slot_discipline 2 (by decide) [draw_ok_oracle, draw_ok_oracle, draw_ok_oracle] 0

/-- Claim C5: `current_frame` starts at 0, stays in `[0, n)`, advances by
exactly one modulo `n` when a cycle completes presentation without triggering
recreation, and is unchanged on every cycle that aborts (recreation at either
point, or an error); no other operation writes it. -/
theorem current_frame_invariant (n : Nat) (hn : 0 < n) (s : SchedState) (o : CycleOracle)
    (hcf : s.current_frame < n) :
    (create_state n).current_frame = 0 ∧
    (draw_frame n s o).1.current_frame < n ∧
    ((draw_frame n s o).2.2 = .ok ∧ SchedEv.recreate ∉ (draw_frame n s o).2.1 →
      (draw_frame n s o).1.current_frame = (s.current_frame + 1) % n) ∧
    ((draw_frame n s o).2.2 ≠ .ok ∨ SchedEv.recreate ∈ (draw_frame n s o).2.1 →
      (draw_frame n s o).1.current_frame = s.current_frame) := by
  have hfacts := (draw_frame_cycle_facts n s o).2.1
  refine ⟨rfl, ?_, ?_, ?_⟩
  · rcases hfacts with ⟨_, _, h⟩ | ⟨_, h⟩
    · rw [h]; exact Nat.mod_lt _ hn
    · rw [h]; exact hcf
  · rintro ⟨hok, hmem⟩
    rcases hfacts with ⟨_, _, h⟩ | ⟨hcontra, _⟩
    · exact h
    · rcases hcontra with hne | hmem2
      · exact absurd hok hne
      · exact absurd hmem2 hmem
  · intro hor
    rcases hfacts with ⟨hok, hmem, _⟩ | ⟨_, h⟩
    · rcases hor with hne | hmem2
      · exact absurd hok hne
      · exact absurd hmem2 hmem
    · exact h

/-- Witness for `current_frame_invariant`: an ordinary cycle at depth 2
advances the frame index from 0 to `(0 + 1) % 2`. -/
theorem current_frame_invariant_witness :
    (create_state 2).current_frame = 0 ∧
    (draw_frame 2 (create_state 2) draw_ok_oracle).1.current_frame < 2 ∧
    (draw_frame 2 (create_state 2) draw_ok_oracle).1.current_frame = (0 + 1) % 2 := by
  have h := current_frame_invariant 2 (by decide) (create_state 2) draw_ok_oracle (by decide)
  exact ⟨h.1, h.2.1, by simpa [create_state] using h.2.2.1 ⟨by decide, by decide⟩⟩

theorem draw_frame_preserves_good (n : Nat) (hn : 0 < n) (s : SchedState)
    (o : CycleOracle) (hg : good_state n s) :
    (draw_frame n s o).2.2 ≠ .blocked ∧
    ((draw_frame n s o).2.2 = .ok → good_state n (draw_frame n s o).1) := by
  obtain ⟨hcf, hlen, hmem⟩ := hg
  constructor
  · intro hb
    have hgd := (draw_frame_cycle_facts n s o).2.2.2.2 hb
    have hlt : s.current_frame < s.fences.length := by rw [hlen]; exact hcf
    rw [List.getD_eq_getElem _ _ hlt] at hgd
    exact hmem _ (List.getElem_mem hlt) hgd
  · intro hok
    have hcf' : (draw_frame n s o).1.current_frame < n := by
      rcases (draw_frame_cycle_facts n s o).2.1 with ⟨_, _, h⟩ | ⟨_, h⟩
      · rw [h]; exact Nat.mod_lt _ hn
      · rw [h]; exact hcf
    have hlen' : (draw_frame n s o).1.fences.length = n := by
      rw [(draw_frame_cycle_facts n s o).2.2.1, hlen]
    refine ⟨hcf', hlen', ?_⟩
    have hset : ∀ v : FenceSt, v ≠ .unsignaled →
        ∀ f ∈ s.fences.set s.current_frame v, f ≠ .unsignaled := by
      intro v hv f hf
      rcases List.mem_or_eq_of_mem_set hf with h | h
      · exact hmem f h
      · rw [h]; exact hv
    have hsig : ∀ (l : List FenceSt), (∀ f ∈ l, f ≠ .unsignaled) →
        ∀ f ∈ signal_pending l, f ≠ .unsignaled := by
      intro l hl f hf
      rcases List.mem_map.1 hf with ⟨x, hx, rfl⟩
      have := hl x hx
      cases x <;> simp_all [signal_pending]
    rcases (draw_frame_cycle_facts n s o).2.2.2.1 hok with h | h | h <;> rw [h]
    · exact hsig _ (hset .signaled (by simp))
    · exact hsig _ (hset .pending (by simp))
    · exact hset .pending (by simp)

theorem run_cycles_never_blocked (n : Nat) (hn : 0 < n) (os : List CycleOracle) :
    ∀ s : SchedState, good_state n s → (run_cycles n s os).2.2 ≠ .blocked := by
  induction os with
  | nil =>
    intro s _
    simp [run_cycles]
  | cons o rest ih =>
    intro s hg
    have hg0 : good_state n (if o.resize_before then { s with resize_flag := true } else s) := by
      unfold good_state at hg ⊢
      split <;> simpa using hg
    rcases hout : (draw_frame n
        (if o.resize_before then { s with resize_flag := true } else s) o).2.2 with _ | e
    · simp only [run_cycles, hout]
      exact ih _ ((draw_frame_preserves_good n hn _ o hg0).2 hout)
    · simp only [run_cycles, hout]
      simp
    · exact absurd hout (draw_frame_preserves_good n hn _ o hg0).1

theorem draw_frame_no_reset_on_acquire_err (n : Nat) (s : SchedState)
    (o : CycleOracle) (code : Int) (h : o.acquire = .err code) :
    SchedEv.fenceReset s.current_frame ∉ (draw_frame n s o).2.1 := by
  obtain ⟨rb, wr, acq, rfr, rcr, rr, sr, pr, rer⟩ := o
  cases h
  by_cases hb : s.fences[s.current_frame]?.getD FenceSt.unsignaled = FenceSt.unsignaled
  · simp [draw_frame, hb]
  · cases wr with
    | some c => simp [draw_frame, hb]
    | none =>
      by_cases hc : code = ERROR_OUT_OF_DATE_KHR
      · cases rer <;> simp [draw_frame, hb, hc]
      · simp [draw_frame, hb, hc]

/-- Claim C10: every in-flight fence is created signaled; a cycle whose image
acquisition fails never resets the current slot's fence; and consequently no
sequence of cycles from the freshly created state ever performs a blocking
fence wait that cannot return. -/
theorem fence_wait_never_blocks (n : Nat) (hn : 0 < n) (os : List CycleOracle) :
    (create_state n).fences = List.replicate n FenceSt.signaled ∧
    (∀ (s : SchedState) (o : CycleOracle) (code : Int), o.acquire = .err code →
      SchedEv.fenceReset s.current_frame ∉ (draw_frame n s o).2.1) ∧
    (run_cycles n (create_state n) os).2.2 ≠ .blocked := by
  refine ⟨rfl, fun s o code h => draw_frame_no_reset_on_acquire_err n s o code h, ?_⟩
  apply run_cycles_never_blocked n hn os
  refine ⟨hn, by simp [create_state], ?_⟩
  intro f hf
  have : f = FenceSt.signaled := List.eq_of_mem_replicate (by simpa [create_state] using hf)
  rw [this]
  simp

/-- Witness for `fence_wait_never_blocks` at depth 2: the fresh fences are
signaled, an acquire-failure cycle performs no fence reset, and a two-cycle
run does not block. -/
theorem fence_wait_never_blocks_witness :
    (create_state 2).fences = List.replicate 2 FenceSt.signaled ∧
    SchedEv.fenceReset 0 ∉
      (draw_frame 2 (create_state 2)
        { draw_ok_oracle with acquire := .err ERROR_DEVICE_LOST }).2.1 ∧
    (run_cycles 2 (create_state 2) [draw_ok_oracle, draw_ok_oracle]).2.2 ≠ .blocked := by
  have h := fence_wait_never_blocks 2 (by decide) [draw_ok_oracle, draw_ok_oracle]
  refine ⟨h.1, ?_, h.2.2⟩
  have := h.2.1 (create_state 2)
    { draw_ok_oracle with acquire := .err ERROR_DEVICE_LOST } ERROR_DEVICE_LOST rfl
  simpa [create_state] using this

/-- Claim C9 (counterexample): in the code's teardown sequence the swapchain
is destroyed before the per-frame sync primitives and the debug messenger
before the surface, contradicting the claimed order (sync primitives first;
surface before messenger). Shown at 3 swapchain images. -/
theorem cleanup_order_differs_from_claim :
    (cleanup 3).indexOf CleanupEv.swapchain <
      (cleanup 3).indexOf (CleanupEv.inFlightFence 0) ∧
    (cleanup 3).indexOf CleanupEv.debugMessenger <
      (cleanup 3).indexOf CleanupEv.surface := by decide

theorem cleanup_key_pairwise (n : Nat) :
    ((cleanup n).map cleanup_key).Pairwise key_lt := by
  have hblock : ∀ (r m : Nat),
      List.Pairwise key_lt ((List.range m).map (fun i => (r, i))) := by
    intro r m
    rw [List.pairwise_map]
    exact (List.pairwise_lt_range m).imp (fun h => Or.inr ⟨rfl, h⟩)
  have htail : ∀ b ∈ ([(3, 0), (4, 0), (5, 0), (6, 0), (7, 0), (8, 0), (9, 0),
      (10, 0), (11, 0), (12, 0), (12, 1), (12, 2), (12, 3), (13, 0), (14, 0),
      (15, 0), (16, 0), (17, 0), (18, 0), (18, 1), (18, 2), (18, 3), (18, 4),
      (18, 5), (19, 0), (20, 0), (21, 0), (22, 0), (23, 0)] : List (Nat × Nat)),
      2 < b.1 := by decide
  have htailpw : List.Pairwise key_lt ([(3, 0), (4, 0), (5, 0), (6, 0), (7, 0),
      (8, 0), (9, 0), (10, 0), (11, 0), (12, 0), (12, 1), (12, 2), (12, 3),
      (13, 0), (14, 0), (15, 0), (16, 0), (17, 0), (18, 0), (18, 1), (18, 2),
      (18, 3), (18, 4), (18, 5), (19, 0), (20, 0), (21, 0), (22, 0), (23, 0)] :
      List (Nat × Nat)) := by decide
  simp only [cleanup, cleanup_swapchain, MAX_FRAMES_IN_FLIGHT, List.map_append,
    List.map_map, List.append_assoc, List.range_succ, List.range_zero,
    List.flatMap_cons, List.flatMap_nil, List.map_cons, List.map_nil,
    List.nil_append, List.cons_append, List.singleton_append, Function.comp,
    cleanup_key]
  rw [List.pairwise_cons]
  refine ⟨?_, ?_⟩
  · intro a ha
    rcases List.mem_append.1 ha with h1 | h23
    · obtain ⟨i, _, rfl⟩ := List.mem_map.1 h1
      exact Or.inl (by simp only [Function.comp_apply, cleanup_key]; omega)
    · rcases List.mem_append.1 h23 with h2 | h3
      · obtain ⟨i, _, rfl⟩ := List.mem_map.1 h2
        exact Or.inl (by simp only [Function.comp_apply, cleanup_key]; omega)
      · exact Or.inl (by have := htail a h3; omega)
  · refine List.pairwise_append.2 ⟨hblock 1 n, ?_, ?_⟩
    · refine List.pairwise_append.2 ⟨hblock 2 n, htailpw, ?_⟩
      intro a ha b hb
      obtain ⟨i, _, rfl⟩ := List.mem_map.1 ha
      exact Or.inl (by
        simp only [Function.comp_apply, cleanup_key]
        have := htail b hb
        omega)
    · intro a ha b hb
      obtain ⟨i, _, rfl⟩ := List.mem_map.1 ha
      rcases List.mem_append.1 hb with h2 | h3
      · obtain ⟨j, _, rfl⟩ := List.mem_map.1 h2
        exact Or.inl (by simp only [Function.comp_apply, cleanup_key]; omega)
      · exact Or.inl (by
          simp only [Function.comp_apply, cleanup_key]
          have := htail b h3
          omega)

/-- Claim C9 (amended): `cleanup` first waits for the device to go idle, then
destroys every owned object exactly once, in the stage order encoded by
`cleanup_rank`: swapchain bundle (framebuffers, image views, chain), vertex
and index buffers with memory, sampler, texture view/image/memory, per-slot
uniform buffers, descriptor pool and set layout, pipeline and layout, render
pass, per-slot sync primitives, command pool, device, debug messenger,
surface, instance. -/
theorem cleanup_order_spec (n : Nat) :
    ((cleanup n).map cleanup_rank).Pairwise (· ≤ ·) ∧
    (cleanup n).Nodup ∧
    (cleanup n).head? = some CleanupEv.waitIdle ∧
    (∀ i, i < n →
      CleanupEv.framebuffer i ∈ cleanup n ∧ CleanupEv.imageView i ∈ cleanup n) ∧
    (∀ i, i < MAX_FRAMES_IN_FLIGHT →
      CleanupEv.uniformBuffer i ∈ cleanup n ∧
      CleanupEv.uniformMemory i ∈ cleanup n ∧
      CleanupEv.imageAvaibleSemaphore i ∈ cleanup n ∧
      CleanupEv.renderDoneSemaphore i ∈ cleanup n ∧
      CleanupEv.inFlightFence i ∈ cleanup n) ∧
    (∀ e ∈ [CleanupEv.swapchain, CleanupEv.vertexBuffer, CleanupEv.vertexMemory,
        CleanupEv.indexBuffer, CleanupEv.indexMemory, CleanupEv.sampler,
        CleanupEv.textureImageView, CleanupEv.textureImage,
        CleanupEv.textureMemory, CleanupEv.descriptorPool,
        CleanupEv.descriptorSetLayout, CleanupEv.pipelineObj,
        CleanupEv.pipelineLayout, CleanupEv.renderPass, CleanupEv.commandPool,
        CleanupEv.device, CleanupEv.debugMessenger, CleanupEv.surface,
        CleanupEv.instanceObj], e ∈ cleanup n) := by
  have hkey := cleanup_key_pairwise n
  rw [List.pairwise_map] at hkey
  refine ⟨?_, ?_, rfl, ?_, ?_, ?_⟩
  · rw [List.pairwise_map]
    refine hkey.imp ?_
    intro a b h
    rcases h with h | ⟨h, _⟩
    · exact Nat.le_of_lt h
    · exact Nat.le_of_eq h
  · have hne : (cleanup n).Pairwise (· ≠ ·) := by
      refine hkey.imp ?_
      intro a b h heq
      subst heq
      rcases h with h | ⟨_, h⟩ <;> omega
    exact hne
  · intro i hi
    constructor <;> simp [cleanup, cleanup_swapchain, hi]
  · intro i hi
    have hi2 : i < 2 := hi
    interval_cases i <;>
      simp [cleanup, cleanup_swapchain, MAX_FRAMES_IN_FLIGHT, List.range_succ]
  · intro e he
    fin_cases he <;>
      simp [cleanup, cleanup_swapchain, MAX_FRAMES_IN_FLIGHT, List.range_succ]

/-- Witness for `cleanup_order_spec` at 3 swapchain images and slot 1. -/
theorem cleanup_order_spec_witness :
    ((cleanup 3).map cleanup_rank).Pairwise (· ≤ ·) ∧
    (cleanup 3).Nodup ∧
    CleanupEv.framebuffer 1 ∈ cleanup 3 ∧
    CleanupEv.inFlightFence 1 ∈ cleanup 3 ∧
    CleanupEv.instanceObj ∈ cleanup 3 := by
  have h := cleanup_order_spec 3
  exact ⟨h.1, h.2.1, (h.2.2.2.1 1 (by decide)).1,
    (h.2.2.2.2.1 1 (by decide)).2.2.2.2,
    h.2.2.2.2.2 CleanupEv.instanceObj (by simp)⟩
